import Mathlib

/-!
Shallow embedding of the melonDS DS libretro presentation layer
(src/libretro/opengl.cpp and src/libretro/libretro.cpp): the screen-layout
geometry compositor, the OpenGL context lifecycle state machine, the frame
presenter, and the entry-point error-handling seams.  Floats are modelled as
rationals; OpenGL object names are modelled as natural numbers managed by a
fresh-name generator per object kind.
-/

namespace Melonds

/-- Screen layout options (the ScreenLayout enum of screenlayout.hpp, mirrored by the
spec data model). -/
inductive ScreenLayout
  | TopBottom | BottomTop | LeftRight | RightLeft
  | TopOnly | BottomOnly | HybridTop | HybridBottom
deriving DecidableEq

/-- Secondary-screen placement for hybrid layouts (the SmallScreenLayout enum). -/
inductive SmallScreenLayout
  | SmallScreenTop | SmallScreenBottom | SmallScreenDuplicate
deriving DecidableEq

/-- Modelled from the spec: ScreenLayoutData (screenlayout.hpp is not part of the source
fragment).  The spec describes it as derived geometry parameters - screen width/height,
inter-screen gap, hybrid ratio, buffer width/height - together with the chosen layout
and small-screen layout, all read-only to the compositor and mutated only by
configuration, which polls the two layout options independently. -/
structure ScreenLayoutData where
  layout : ScreenLayout
  hybridSmallScreen : SmallScreenLayout
  screenWidth : ℚ
  screenHeight : ℚ
  scaledScreenGap : ℚ
  hybridRatio : ℚ
  bufferWidth : ℚ
  bufferHeight : ℚ
deriving DecidableEq

/-- Modelled from the spec: ScreenLayoutData::IsHybridLayout(); the spec glossary
defines a hybrid layout as the picture-in-picture arrangement, i.e. HybridTop or
HybridBottom. -/
def ScreenLayoutData.IsHybridLayout (s : ScreenLayoutData) : Bool :=
  match s.layout with
  | ScreenLayout.HybridTop => true
  | ScreenLayout.HybridBottom => true
  | _ => false

/-- One interleaved vertex: position (x, y) and texture coordinate (u, v)
(opengl.cpp SETVERTEX writes four floats per vertex). -/
structure Vertex where
  x : ℚ
  y : ℚ
  u : ℚ
  v : ℚ
deriving DecidableEq

/-- Seam padding used by InitializeFrameState (opengl.cpp line 338):
a compile-time constant 1.0f / (192 * 2 + 2). -/
def pixel_pad : ℚ := 1 / (192 * 2 + 2)

/-- The local variables of InitializeFrameState, with the initial values they are
given before the switch over the layout (opengl.cpp lines 315-336). -/
structure FrameLocals where
  top_screen_x : ℚ := 0
  top_screen_y : ℚ := 0
  top_screen_scale : ℚ := 1
  bottom_screen_x : ℚ := 0
  bottom_screen_y : ℚ := 0
  bottom_screen_scale : ℚ := 1
  primary_x : ℚ := 0
  primary_y : ℚ := 0
  primary_tex_v0_x : ℚ := 0
  primary_tex_v0_y : ℚ := 0
  primary_tex_v1_x : ℚ := 0
  primary_tex_v1_y : ℚ := 0
  primary_tex_v2_x : ℚ := 0
  primary_tex_v2_y : ℚ := 0
  primary_tex_v3_x : ℚ := 0
  primary_tex_v3_y : ℚ := 0
  primary_tex_v4_x : ℚ := 0
  primary_tex_v4_y : ℚ := 0
  primary_tex_v5_x : ℚ := 0
  primary_tex_v5_y : ℚ := 0
deriving DecidableEq

/-- The switch over the layout in InitializeFrameState (opengl.cpp lines 341-396). -/
def switchLocals (s : ScreenLayoutData) : FrameLocals :=
  let screen_width := s.screenWidth
  let screen_height := s.screenHeight
  let screen_gap := s.scaledScreenGap
  match s.layout with
  | ScreenLayout.TopBottom => { bottom_screen_y := screen_height + screen_gap }
  | ScreenLayout.BottomTop => { top_screen_y := screen_height + screen_gap }
  | ScreenLayout.LeftRight => { bottom_screen_x := screen_width }
  | ScreenLayout.RightLeft => { top_screen_x := screen_width }
  | ScreenLayout.TopOnly => { bottom_screen_y := screen_height }
  | ScreenLayout.BottomOnly => { top_screen_y := screen_height }
  | ScreenLayout.HybridTop =>
      { primary_x := screen_width * s.hybridRatio
        primary_y := screen_height * s.hybridRatio
        primary_tex_v0_x := 0
        primary_tex_v0_y := 0
        primary_tex_v1_x := 0
        primary_tex_v1_y := 1/2 - pixel_pad
        primary_tex_v2_x := 1
        primary_tex_v2_y := 1/2 - pixel_pad
        primary_tex_v3_x := 0
        primary_tex_v3_y := 0
        primary_tex_v4_x := 1
        primary_tex_v4_y := 0
        primary_tex_v5_x := 1
        primary_tex_v5_y := 1/2 - pixel_pad }
  | ScreenLayout.HybridBottom =>
      { primary_x := screen_width * s.hybridRatio
        primary_y := screen_height * s.hybridRatio
        primary_tex_v0_x := 0
        primary_tex_v0_y := 1/2 + pixel_pad
        primary_tex_v1_x := 0
        primary_tex_v1_y := 1
        primary_tex_v2_x := 1
        primary_tex_v2_y := 1
        primary_tex_v3_x := 0
        primary_tex_v3_y := 1/2 + pixel_pad
        primary_tex_v4_x := 1
        primary_tex_v4_y := 1/2 + pixel_pad
        primary_tex_v5_x := 1
        primary_tex_v5_y := 1 }

/-- The ordered sequence of SETVERTEX writes performed by InitializeFrameState
(opengl.cpp lines 406-482): each entry is (index into screen_vertices, vertex). -/
def frameWrites (s : ScreenLayoutData) : List (Nat × Vertex) :=
  let L := switchLocals s
  let screen_width := s.screenWidth
  let screen_height := s.screenHeight
  let layout := s.layout
  let smallScreenLayout := s.hybridSmallScreen
  if s.IsHybridLayout then
    [ (0, ⟨0, 0, L.primary_tex_v0_x, L.primary_tex_v0_y⟩),
      (1, ⟨0, L.primary_y, L.primary_tex_v1_x, L.primary_tex_v1_y⟩),
      (2, ⟨L.primary_x, L.primary_y, L.primary_tex_v2_x, L.primary_tex_v2_y⟩),
      (3, ⟨0, 0, L.primary_tex_v3_x, L.primary_tex_v3_y⟩),
      (4, ⟨L.primary_x, 0, L.primary_tex_v4_x, L.primary_tex_v4_y⟩),
      (5, ⟨L.primary_x, L.primary_y, L.primary_tex_v5_x, L.primary_tex_v5_y⟩) ]
    ++ (if smallScreenLayout = SmallScreenLayout.SmallScreenTop ∧ layout = ScreenLayout.HybridTop then
          [ (6, ⟨L.primary_x, 0, 0, 1/2 + pixel_pad⟩),
            (7, ⟨L.primary_x, 0 + screen_height, 0, 1⟩),
            (8, ⟨L.primary_x + screen_width, 0 + screen_height, 1, 1⟩),
            (9, ⟨L.primary_x, 0, 0, 1/2 + pixel_pad⟩),
            (10, ⟨L.primary_x + screen_width, 0, 1, 1/2 + pixel_pad⟩),
            (11, ⟨L.primary_x + screen_width, 0 + screen_height, 1, 1⟩) ]
        else if smallScreenLayout = SmallScreenLayout.SmallScreenDuplicate
                ∨ (layout = ScreenLayout.HybridBottom ∧ smallScreenLayout = SmallScreenLayout.SmallScreenTop) then
          [ (6, ⟨L.primary_x, 0, 0, 0⟩),
            (7, ⟨L.primary_x, 0 + screen_height, 0, 1/2 - pixel_pad⟩),
            (8, ⟨L.primary_x + screen_width, 0 + screen_height, 1, 1/2 - pixel_pad⟩),
            (9, ⟨L.primary_x, 0, 0, 0⟩),
            (10, ⟨L.primary_x + screen_width, 0, 1, 0⟩),
            (11, ⟨L.primary_x + screen_width, 0 + screen_height, 1, 1/2 - pixel_pad⟩) ]
        else [])
    ++ (if smallScreenLayout = SmallScreenLayout.SmallScreenBottom ∧ layout = ScreenLayout.HybridTop then
          [ (6, ⟨L.primary_x, L.primary_y - screen_height, 0, 1/2 + pixel_pad⟩),
            (7, ⟨L.primary_x, L.primary_y, 0, 1⟩),
            (8, ⟨L.primary_x + screen_width, L.primary_y, 1, 1⟩),
            (9, ⟨L.primary_x, L.primary_y - screen_height, 0, 1/2 + pixel_pad⟩),
            (10, ⟨L.primary_x + screen_width, L.primary_y - screen_height, 1, 1/2 + pixel_pad⟩),
            (11, ⟨L.primary_x + screen_width, L.primary_y, 1, 1⟩) ]
        else if smallScreenLayout = SmallScreenLayout.SmallScreenBottom ∧ layout = ScreenLayout.HybridBottom then
          [ (6, ⟨L.primary_x, L.primary_y - screen_height, 0, 0⟩),
            (7, ⟨L.primary_x, L.primary_y, 0, 1/2 - pixel_pad⟩),
            (8, ⟨L.primary_x + screen_width, L.primary_y, 1, 1/2 - pixel_pad⟩),
            (9, ⟨L.primary_x, L.primary_y - screen_height, 0, 0⟩),
            (10, ⟨L.primary_x + screen_width, L.primary_y - screen_height, 1, 0⟩),
            (11, ⟨L.primary_x + screen_width, L.primary_y, 1, 1/2 - pixel_pad⟩) ]
        else if smallScreenLayout = SmallScreenLayout.SmallScreenDuplicate then
          [ (12, ⟨L.primary_x, L.primary_y - screen_height, 0, 1/2 + pixel_pad⟩),
            (13, ⟨L.primary_x, L.primary_y, 0, 1⟩),
            (14, ⟨L.primary_x + screen_width, L.primary_y, 1, 1⟩),
            (15, ⟨L.primary_x, L.primary_y - screen_height, 0, 1/2 + pixel_pad⟩),
            (16, ⟨L.primary_x + screen_width, L.primary_y - screen_height, 1, 1/2 + pixel_pad⟩),
            (17, ⟨L.primary_x + screen_width, L.primary_y, 1, 1⟩) ]
        else [])
  else
    [ (0, ⟨L.top_screen_x, L.top_screen_y, 0, 0⟩),
      (1, ⟨L.top_screen_x, L.top_screen_y + screen_height * L.top_screen_scale, 0, 1/2 - pixel_pad⟩),
      (2, ⟨L.top_screen_x + screen_width * L.top_screen_scale,
           L.top_screen_y + screen_height * L.top_screen_scale, 1, 1/2 - pixel_pad⟩),
      (3, ⟨L.top_screen_x, L.top_screen_y, 0, 0⟩),
      (4, ⟨L.top_screen_x + screen_width * L.top_screen_scale, L.top_screen_y, 1, 0⟩),
      (5, ⟨L.top_screen_x + screen_width * L.top_screen_scale,
           L.top_screen_y + screen_height * L.top_screen_scale, 1, 1/2 - pixel_pad⟩),
      (6, ⟨L.bottom_screen_x, L.bottom_screen_y, 0, 1/2 + pixel_pad⟩),
      (7, ⟨L.bottom_screen_x, L.bottom_screen_y + screen_height * L.bottom_screen_scale, 0, 1⟩),
      (8, ⟨L.bottom_screen_x + screen_width * L.bottom_screen_scale,
           L.bottom_screen_y + screen_height * L.bottom_screen_scale, 1, 1⟩),
      (9, ⟨L.bottom_screen_x, L.bottom_screen_y, 0, 1/2 + pixel_pad⟩),
      (10, ⟨L.bottom_screen_x + screen_width * L.bottom_screen_scale, L.bottom_screen_y, 1, 1/2 + pixel_pad⟩),
      (11, ⟨L.bottom_screen_x + screen_width * L.bottom_screen_scale,
            L.bottom_screen_y + screen_height * L.bottom_screen_scale, 1, 1⟩) ]

/-- Number of vertices written by one frame-state rebuild. -/
def verticesWritten (s : ScreenLayoutData) : Nat := (frameWrites s).length

/-- Vertex count of the draw call issued by Render (opengl.cpp lines 163-164):
18 when HybridSmallScreenLayout() is SmallScreenDuplicate, otherwise 12. -/
def drawVertexCount (s : ScreenLayoutData) : Nat :=
  if s.hybridSmallScreen = SmallScreenLayout.SmallScreenDuplicate then 18 else 12

/-- The all-zero vertex, the initial value of each entry of the static
screen_vertices array (C zero initialization of a static array). -/
def zeroVertex : Vertex := ⟨0, 0, 0, 0⟩

/-- The static screen_vertices array (72 floats, i.e. 18 vertices), modelled as a map
from vertex index to vertex; only indices 0..17 are ever read or written. -/
def VertexArray : Type := Nat → Vertex

/-- Apply an ordered sequence of SETVERTEX writes to the screen_vertices array
(later writes to the same index win, as for a C array). -/
def applyWrites (ws : List (Nat × Vertex)) (f : VertexArray) : VertexArray :=
  ws.foldl (fun acc w => fun j => if j = w.1 then w.2 else acc j) f

/-- Vertex i of the screen_vertices array right after a frame-state rebuild that
started from the zero-initialized array. -/
def vertexAt (s : ScreenLayoutData) (i : Nat) : Vertex :=
  applyWrites (frameWrites s) (fun _ => zeroVertex) i

/-- The texture v-coordinates of the vertices written by one frame-state rebuild, in
write order; consecutive groups of six belong to one screen quad (two triangles). -/
def texVList (s : ScreenLayoutData) : List ℚ :=
  (frameWrites s).map (fun w => w.2.v)

/-- A quad whose texture v-coordinates either all stay in the top half of the combined
source texture (at most 0.5 minus the seam padding) or all stay in the bottom half
(at least 0.5 plus the seam padding). -/
def QuadSamplesOneScreen (vs : List ℚ) : Prop :=
  (∀ v ∈ vs, v ≤ 1/2 - pixel_pad) ∨ (∀ v ∈ vs, 1/2 + pixel_pad ≤ v)

/-- Every quad written by a frame-state rebuild samples only one screen and keeps its
v-coordinates outside the open seam band (0.5 - pad, 0.5 + pad). -/
def SeamRespected (s : ScreenLayoutData) : Prop :=
  QuadSamplesOneScreen ((texVList s).take 6)
    ∧ QuadSamplesOneScreen (((texVList s).drop 6).take 6)
    ∧ QuadSamplesOneScreen ((texVList s).drop 12)

/-- A namespace of OpenGL object names of one kind (textures, buffers, vertex arrays,
or programs): the set of live names plus a fresh-name counter.  GL names start at 1;
the C globals all start at 0, which is never a live name. -/
structure GlNamespace where
  live : Finset Nat
  next : Nat
deriving DecidableEq

/-- A namespace with no live objects, as at process start. -/
def GlNamespace.empty : GlNamespace := ⟨∅, 1⟩

/-- glGen* semantics: return a fresh name and mark it live. -/
def GlNamespace.gen (ns : GlNamespace) : Nat × GlNamespace :=
  (ns.next, ⟨insert ns.next ns.live, ns.next + 1⟩)

/-- glDelete* semantics: a live name is released; a name that is not live is silently
ignored (glDeleteTextures, glDeleteBuffers, glDeleteVertexArrays) or merely records a
GL_INVALID_VALUE error without touching any object (glDeleteProgram, glDeleteShader).
Either way no object state changes, so deleting a dead name is a state no-op and
never a fault. -/
def GlNamespace.delete (ns : GlNamespace) (id : Nat) : GlNamespace :=
  ⟨ns.live.erase id, ns.next⟩

/-- The GL_ShaderConfig uniform block (opengl.cpp lines 51-57): screen size, 3D
upscale factor, filter mode, and the virtual-cursor bounding box. -/
structure UniformBlock where
  uScreenSize : ℚ × ℚ
  u3DScale : Nat
  uFilterMode : Nat
  cursorPos : ℚ × ℚ × ℚ × ℚ
deriving DecidableEq

/-- The all-zero uniform block produced by the memset in SetupOpenGl (line 260). -/
def UniformBlock.zero : UniformBlock := ⟨(0, 0), 0, 0, (0, 0, 0, 0)⟩

/-- The mutable file-scope state of opengl.cpp (lines 43-58) together with the
GL object stores the code manipulates through the GL API.  uboData is the uniform
data most recently uploaded to the GPU uniform buffer (none before any upload);
vboData is the vertex data most recently uploaded to the GPU vertex buffer. -/
structure OpenGlState where
  refresh_opengl : Bool
  context_initialized : Bool
  shaderConfig : UniformBlock
  screen_vertices : VertexArray
  textures : GlNamespace
  buffers : GlNamespace
  vaos : GlNamespace
  programs : GlNamespace
  shader : Nat
  screen_framebuffer_texture : Nat
  vao : Nat
  vbo : Nat
  ubo : Nat
  uboData : Option UniformBlock
  vboData : Option VertexArray

/-- The state at process start: refresh_opengl is statically initialized to true,
context_initialized to false, and every handle to 0 (opengl.cpp lines 44-58). -/
def initialOpenGlState : OpenGlState where
  refresh_opengl := true
  context_initialized := false
  shaderConfig := UniformBlock.zero
  screen_vertices := fun _ => zeroVertex
  textures := GlNamespace.empty
  buffers := GlNamespace.empty
  vaos := GlNamespace.empty
  programs := GlNamespace.empty
  shader := 0
  screen_framebuffer_texture := 0
  vao := 0
  vbo := 0
  ubo := 0
  uboData := none
  vboData := none

/-- SetupOpenGl (opengl.cpp lines 229-290): build and link the shader program, zero
GL_ShaderConfig, allocate the uniform buffer (uploading the zeroed block), the vertex
buffer (with undefined contents), the vertex array, and the output texture, then set
refresh_opengl.  Whether shader building and linking succeed depends on the GL
driver, so the two outcomes are oracle inputs; on failure the function returns false
after the partial work done so far, exactly as the early returns do. -/
def SetupOpenGl (buildOk linkOk : Bool) (s : OpenGlState) : Bool × OpenGlState :=
  if !buildOk then (false, s)
  else
    let p := s.programs.gen
    let s1 := { s with programs := p.2, shader := p.1 }
    if !linkOk then (false, s1)
    else
      let cfg := UniformBlock.zero
      let u := s1.buffers.gen
      let s2 := { s1 with shaderConfig := cfg, buffers := u.2, ubo := u.1, uboData := some cfg }
      let v := s2.buffers.gen
      let s3 := { s2 with buffers := v.2, vbo := v.1, vboData := none }
      let a := s3.vaos.gen
      let s4 := { s3 with vaos := a.2, vao := a.1 }
      let t := s4.textures.gen
      let s5 := { s4 with textures := t.2, screen_framebuffer_texture := t.1 }
      (true, { s5 with refresh_opengl := true })

/-- ContextReset (opengl.cpp lines 186-214): after re-resolving GL function pointers
and reinitializing the engine renderer (external collaborators), run SetupOpenGl and
record its outcome in context_initialized. -/
def ContextReset (buildOk linkOk : Bool) (s : OpenGlState) : OpenGlState :=
  let r := SetupOpenGl buildOk linkOk s
  { r.2 with context_initialized := r.1 }

/-- ContextInitialized (opengl.cpp lines 69-71). -/
def ContextInitialized (s : OpenGlState) : Bool := s.context_initialized

/-- context_destroy (opengl.cpp lines 216-226): delete the output texture, the vertex
array, the vertex buffer, and the shader program.  The uniform buffer is not deleted
and no flag is touched. -/
def context_destroy (s : OpenGlState) : OpenGlState :=
  { s with
    textures := s.textures.delete s.screen_framebuffer_texture
    vaos := s.vaos.delete s.vao
    buffers := s.buffers.delete s.vbo
    programs := s.programs.delete s.shader }

/-- NDS_SCREEN_WIDTH in pixels. -/
def NDS_SCREEN_WIDTH : ℚ := 256

/-- NDS_SCREEN_HEIGHT in pixels. -/
def NDS_SCREEN_HEIGHT : ℚ := 192

/-- The cursor bounding box computed in Render (opengl.cpp lines 132-135); the float
literals 1.35f and 1.5f are the rationals 27/20 and 3/2. -/
def cursorBox (touchX touchY cursorSize : ℚ) : ℚ × ℚ × ℚ × ℚ :=
  ((touchX - cursorSize) / (NDS_SCREEN_HEIGHT * (27/20)),
   (touchY - cursorSize) / (NDS_SCREEN_WIDTH * (3/2)) + 1/2,
   (touchX + cursorSize) / (NDS_SCREEN_HEIGHT * (27/20)),
   (touchY + cursorSize) / (NDS_SCREEN_WIDTH * (3/2)) + 1/2)

/-- The disabled-sentinel cursor box written by InitializeFrameState (lines 301-304). -/
def disabledCursor : ℚ × ℚ × ℚ × ℚ := (-1, -1, -1, -1)

/-- InitializeFrameState (opengl.cpp lines 292-489): clear the refresh flag, fill in
the uniform block (screen size from the buffer dimensions, the 3D scale factor from
configuration, the cursor fields set to the disabled sentinel -1.0; uFilterMode is
never written after the initial memset), upload it to the uniform buffer, rebuild
screen_vertices for the given layout, and upload the array to the vertex buffer. -/
def InitializeFrameState (layout : ScreenLayoutData) (scaleFactor : Nat)
    (s : OpenGlState) : OpenGlState :=
  let cfg : UniformBlock :=
    { uScreenSize := (layout.bufferWidth, layout.bufferHeight)
      u3DScale := scaleFactor
      uFilterMode := s.shaderConfig.uFilterMode
      cursorPos := disabledCursor }
  let verts := applyWrites (frameWrites layout) s.screen_vertices
  { s with
    refresh_opengl := false
    shaderConfig := cfg
    uboData := some cfg
    screen_vertices := verts
    vboData := some verts }

/-- The per-frame inputs Render reads: cursor state from InputState, the layout data,
and the configured 3D scale factor. -/
structure RenderInput where
  cursorEnabled : Bool
  touchX : ℚ
  touchY : ℚ
  cursorSize : ℚ
  screenLayout : ScreenLayoutData
  scaleFactor : Nat

/-- The externally observable actions of one Render invocation: whether the
framebuffer was cleared, the vertex count of the draw call, and the dimensions
passed to the video-refresh callback. -/
structure RenderEffects where
  cleared : Bool
  drawCount : Nat
  frameWidth : ℚ
  frameHeight : ℚ
deriving DecidableEq

/-- Render (opengl.cpp lines 114-177): if refresh_opengl is set, clear the
framebuffer and rebuild the frame state; if the virtual cursor is enabled, recompute
its bounding box and upload the uniform block; then draw 18 vertices when the
small-screen layout is SmallScreenDuplicate and 12 otherwise, and hand the frame to
the host.  When the cursor is disabled nothing is uploaded to the uniform buffer. -/
def Render (i : RenderInput) (s : OpenGlState) : OpenGlState × RenderEffects :=
  let cleared := s.refresh_opengl
  let s1 := if s.refresh_opengl then InitializeFrameState i.screenLayout i.scaleFactor s else s
  let s2 :=
    if i.cursorEnabled then
      let cfg := { s1.shaderConfig with cursorPos := cursorBox i.touchX i.touchY i.cursorSize }
      { s1 with shaderConfig := cfg, uboData := some cfg }
    else s1
  (s2, { cleared := cleared
         drawCount := drawVertexCount i.screenLayout
         frameWidth := i.screenLayout.bufferWidth
         frameHeight := i.screenLayout.bufferHeight })

/-- Run a sequence of Render invocations, threading the OpenGL state. -/
def runRenders (inputs : List RenderInput) (s : OpenGlState) : OpenGlState :=
  inputs.foldl (fun st i => (Render i st).1) s

/-- The exception classes distinguished by the catch clauses of retro_reset and
HardwareContextReset (libretro.cpp lines 178-196 and 203-221): opengl_exception,
emulator_exception, std::exception, and the catch-all for anything else. -/
inductive CoreException
  | opengl | emulator | std | unknown
deriving DecidableEq

/-- Host-visible effects of one entry-point invocation: whether an error was logged
through retro::error, whether a host-visible error message was set through
retro::set_error_message, and whether host shutdown was requested. -/
structure HostEffects where
  loggedError : Bool
  errorMessageSet : Bool
  shutdownRequested : Bool
deriving DecidableEq

/-- No effects at all. -/
def noEffects : HostEffects := ⟨false, false, false⟩

/-- The outcome of an entry-point invocation at the host ABI boundary: either a
normal return with the listed effects, or an exception escaping through the ABI. -/
inductive EntryOutcome
  | normal (fx : HostEffects)
  | thrown (e : CoreException) (fx : HostEffects)
deriving DecidableEq

/-- Whether the invocation returned normally (no exception crossed the ABI). -/
def EntryOutcome.isNormal : EntryOutcome → Bool
  | normal _ => true
  | thrown _ _ => false

/-- The host-visible effects of the outcome. -/
def EntryOutcome.effects : EntryOutcome → HostEffects
  | normal fx => fx
  | thrown _ fx => fx

/-- retro_reset (libretro.cpp lines 171-197) as a function of the inner outcome of
MelonDsDs::Core.Reset(): opengl_exception and emulator_exception are logged with
retro::error, reported with retro::set_error_message, and answered with a shutdown
request; std::exception and the catch-all set the error message and request shutdown
but do not call retro::error.  No exception leaves the handler. -/
def retro_reset (inner : Except CoreException Unit) : EntryOutcome :=
  match inner with
  | Except.ok _ => EntryOutcome.normal noEffects
  | Except.error CoreException.opengl => EntryOutcome.normal ⟨true, true, true⟩
  | Except.error CoreException.emulator => EntryOutcome.normal ⟨true, true, true⟩
  | Except.error CoreException.std => EntryOutcome.normal ⟨false, true, true⟩
  | Except.error CoreException.unknown => EntryOutcome.normal ⟨false, true, true⟩

/-- HardwareContextReset (libretro.cpp lines 199-222) as a function of the inner
outcome of Core.ResetRenderState(); the catch clauses mirror retro_reset exactly. -/
def HardwareContextReset (inner : Except CoreException Unit) : EntryOutcome :=
  match inner with
  | Except.ok _ => EntryOutcome.normal noEffects
  | Except.error CoreException.opengl => EntryOutcome.normal ⟨true, true, true⟩
  | Except.error CoreException.emulator => EntryOutcome.normal ⟨true, true, true⟩
  | Except.error CoreException.std => EntryOutcome.normal ⟨false, true, true⟩
  | Except.error CoreException.unknown => EntryOutcome.normal ⟨false, true, true⟩

/-- Modelled from the spec: CoreState::Run (core.cpp is not part of the source
fragment; retro_run at libretro.cpp lines 106-112 calls it with no handler of its
own).  Per the spec, every failure inside the run invocation is caught within it and
converted to a logged message, a host-visible error string, and a shutdown request,
so the modelled Run never throws. -/
def CoreRun (failure : Option CoreException) : HostEffects :=
  match failure with
  | none => noEffects
  | some _ => ⟨true, true, true⟩

/-- retro_run (libretro.cpp lines 106-112): forwards to CoreRun, which handles its
own failures; the entry point itself adds no handler. -/
def retro_run (failure : Option CoreException) : EntryOutcome :=
  EntryOutcome.normal (CoreRun failure)

/-- Modelled from the spec: CoreState::LoadGame (core.cpp is not part of the source
fragment; retro_load_game at libretro.cpp lines 85-96 returns its result with no
handler of its own).  Per the spec it converts failures into the reported triple and
returns false instead of throwing. -/
def CoreLoadGame (failure : Option CoreException) : Bool × HostEffects :=
  match failure with
  | none => (true, noEffects)
  | some _ => (false, ⟨true, true, true⟩)

/-- retro_load_game (libretro.cpp lines 85-96): forwards to CoreLoadGame, which
handles its own failures; the entry point itself adds no handler. -/
def retro_load_game (failure : Option CoreException) : EntryOutcome :=
  EntryOutcome.normal (CoreLoadGame failure).2

/-- Whatever the rest of the program state may be: whether a game is loaded, whether
the core is initialized, and the whole OpenGL state.  retro_get_region reads none
of it. -/
structure ProgramState where
  gameLoaded : Bool
  coreInitialized : Bool
  gl : OpenGlState

/-- RETRO_REGION_NTSC (libretro.h). -/
def RETRO_REGION_NTSC : Nat := 0

/-- retro_get_region (libretro.cpp lines 129-131): returns RETRO_REGION_NTSC
unconditionally. -/
def retro_get_region (_ : ProgramState) : Nat := RETRO_REGION_NTSC

/-- A concrete non-hybrid layout selection whose small-screen option is set to
SmallScreenDuplicate: native 256x192 screens, no gap, hybrid ratio 3. -/
def topBottomDuplicate : ScreenLayoutData :=
  ⟨ScreenLayout.TopBottom, SmallScreenLayout.SmallScreenDuplicate, 256, 192, 0, 3, 256, 384⟩

/-- A concrete TopOnly layout at native dimensions. -/
def topOnlyLayout : ScreenLayoutData :=
  ⟨ScreenLayout.TopOnly, SmallScreenLayout.SmallScreenBottom, 256, 192, 0, 3, 256, 192⟩

/-- A concrete TopBottom layout at native dimensions used by the render traces. -/
def sampleLayout : ScreenLayoutData :=
  ⟨ScreenLayout.TopBottom, SmallScreenLayout.SmallScreenBottom, 256, 192, 0, 3, 256, 384⟩

/-- A Render invocation with the virtual cursor disabled. -/
def cursorOffInput : RenderInput :=
  { cursorEnabled := false, touchX := 0, touchY := 0, cursorSize := 2
    screenLayout := sampleLayout, scaleFactor := 1 }

/-- A Render invocation with the virtual cursor enabled at touch point (0, 0) with
cursor size 2. -/
def cursorOnInput : RenderInput :=
  { cursorEnabled := true, touchX := 0, touchY := 0, cursorSize := 2
    screenLayout := sampleLayout, scaleFactor := 1 }

/-- The OpenGL state after a successful context reset from the process-start state. -/
def resetState : OpenGlState := ContextReset true true initialOpenGlState

/-- The state reached by rendering once with the cursor disabled (this uploads the
disabled sentinel as part of the refresh), once with it enabled, and once more with
it disabled, starting from a freshly reset context. -/
def enableDisableTraceState : OpenGlState :=
  runRenders [cursorOffInput, cursorOnInput, cursorOffInput] resetState

/-- The OpenGL state after a successful context reset followed by context_destroy. -/
def destroyedState : OpenGlState := context_destroy resetState

/-- The OpenGL state after reset, destroy, and a second successful reset. -/
def secondResetState : OpenGlState := ContextReset true true destroyedState

end Melonds

namespace Melonds

/-- The top-half v-coordinate bound is nonnegative. -/
theorem zero_le_top_bound : (0 : ℚ) ≤ (2 : ℚ)⁻¹ - pixel_pad := by norm_num [pixel_pad]

/-- The bottom-half v-coordinate bound does not exceed 1. -/
theorem bottom_bound_le_one : (2 : ℚ)⁻¹ + pixel_pad ≤ 1 := by norm_num [pixel_pad]

/-- The seam padding is at most one half. -/
theorem pad_le_half : pixel_pad ≤ (2 : ℚ)⁻¹ := by norm_num [pixel_pad]

/-- C1 counterexample: for the reachable non-hybrid configuration TopBottom with the
small-screen option set to SmallScreenDuplicate, the frame-state rebuild writes 12
vertices but the draw call issued by Render covers 18 vertices, so the draw call of a
non-hybrid layout does not always cover exactly 12 vertices and does not always match
the number of vertices most recently written. -/
theorem C1_draw_count_counterexample :
    topBottomDuplicate.IsHybridLayout = false
      ∧ verticesWritten topBottomDuplicate = 12
      ∧ drawVertexCount topBottomDuplicate = 18 := by
  refine ⟨rfl, ?_, ?_⟩ <;>
    simp [topBottomDuplicate, verticesWritten, drawVertexCount, frameWrites, switchLocals,
          ScreenLayoutData.IsHybridLayout]

/-- C1 amended: the frame-state rebuild writes exactly 18 vertices for a hybrid
layout with SmallScreenDuplicate and exactly 12 vertices in every other
configuration, while the draw call covers 18 vertices exactly when the small-screen
option is SmallScreenDuplicate (whether or not the layout is hybrid) and 12
otherwise; hence draw count and written count agree except for a non-hybrid layout
configured with SmallScreenDuplicate, where 12 are written but 18 are drawn. -/
theorem C1_vertex_counts_amended :
    ∀ s : ScreenLayoutData,
      verticesWritten s =
        (if s.IsHybridLayout = true ∧ s.hybridSmallScreen = SmallScreenLayout.SmallScreenDuplicate
         then 18 else 12)
      ∧ drawVertexCount s =
        (if s.hybridSmallScreen = SmallScreenLayout.SmallScreenDuplicate then 18 else 12) := by
  intro s
  rcases s with ⟨l, m, w, h, gap, r, bw, bh⟩
  cases l <;> cases m <;>
    simp [verticesWritten, drawVertexCount, frameWrites, switchLocals,
          ScreenLayoutData.IsHybridLayout]

/-- C2 counterexample: when Core.Reset() fails with a plain std::exception, the
retro_reset handler sets the host-visible error message and requests shutdown but
does not log an error message through retro::error, so the failure is not converted
into all three of (logged message, error string, shutdown request) as the claim
requires. -/
theorem C2_std_exception_not_logged_counterexample :
    retro_reset (Except.error CoreException.std)
        = EntryOutcome.normal ⟨false, true, true⟩
      ∧ (retro_reset (Except.error CoreException.std)).effects.loggedError = false := by
  exact ⟨rfl, rfl⟩

/-- C2 amended: no exception ever propagates out of an entry point through the host
ABI: every failure inside an invocation of reset, the hardware-context reset
callback, run, or load_game is caught within the invocation and converted into a
host-visible error string and a shutdown request, with an error additionally logged
through retro::error for the opengl and emulator exception classes; std::exception
and unknown failures produce the error string and shutdown request without the
retro::error log.  (For run and load_game the conversion happens inside the core
methods, modelled from the spec.) -/
theorem C2_boundary_conversion_amended :
    ∀ (e : CoreException) (f : Option CoreException),
      (retro_reset (Except.ok ()) = EntryOutcome.normal noEffects)
      ∧ (retro_reset (Except.error e)).isNormal = true
      ∧ (retro_reset (Except.error e)).effects.errorMessageSet = true
      ∧ (retro_reset (Except.error e)).effects.shutdownRequested = true
      ∧ (retro_reset (Except.error e)).effects.loggedError
          = decide (e = CoreException.opengl ∨ e = CoreException.emulator)
      ∧ HardwareContextReset (Except.error e) = retro_reset (Except.error e)
      ∧ HardwareContextReset (Except.ok ()) = EntryOutcome.normal noEffects
      ∧ (retro_run f).isNormal = true
      ∧ (retro_run (some e)).effects = ⟨true, true, true⟩
      ∧ (retro_load_game f).isNormal = true
      ∧ (retro_load_game (some e)).effects = ⟨true, true, true⟩ := by
  intro e f
  cases e <;> cases f
  all_goals try (rename_i g; cases g)
  all_goals decide

/-- C3 counterexample: the seam padding computed by the compositor is the constant
1/386 and is not 1/(2H+2) for every screen height H it is handed; at screen height
384 the claimed formula would give 1/770. -/
theorem C3_padding_formula_counterexample :
    ¬ ∀ s : ScreenLayoutData, pixel_pad = 1 / (2 * s.screenHeight + 2) := by
  intro hall
  have h := hall ⟨ScreenLayout.TopBottom, SmallScreenLayout.SmallScreenBottom, 512, 384, 0, 3, 512, 768⟩
  norm_num [pixel_pad] at h

/-- C3 amended: the seam padding is the constant 1/(2*192+2) = 1/386, i.e. the
claimed formula 1/(2H+2) evaluated at the native screen height H = 192 only; with
this padding, every quad of every vertex buffer the rebuild produces samples a single
screen: its v-coordinates are all at most 0.5 minus the padding (top screen) or all
at least 0.5 plus the padding (bottom screen). -/
theorem C3_seam_padding_amended :
    pixel_pad = 1 / (2 * 192 + 2) ∧ ∀ s : ScreenLayoutData, SeamRespected s := by
  refine ⟨by norm_num [pixel_pad], ?_⟩
  intro s
  rcases s with ⟨l, m, w, h, gap, r, bw, bh⟩
  cases l <;> cases m <;>
    simp [SeamRespected, QuadSamplesOneScreen, texVList, frameWrites, switchLocals,
          ScreenLayoutData.IsHybridLayout, List.forall_mem_cons,
          zero_le_top_bound, bottom_bound_le_one, pad_le_half]

/-- C4: evaluating the code on the trace reset, render with cursor disabled, render
with cursor enabled at (0,0) with size 2, render with cursor disabled again: after
the final cursor-disabled render the uniform buffer still holds the cursor box
uploaded while the cursor was enabled, not the disabled sentinel -1.0, because
Render only uploads the uniform block when the cursor is enabled or during a
refresh. -/
theorem C4_stale_cursor_after_disable :
    cursorOffInput.cursorEnabled = false
      ∧ enableDisableTraceState.uboData.map UniformBlock.cursorPos = some (cursorBox 0 0 2)
      ∧ enableDisableTraceState.shaderConfig.cursorPos = cursorBox 0 0 2
      ∧ cursorBox 0 0 2 ≠ disabledCursor := by
  refine ⟨rfl, ?_, ?_, ?_⟩
  · simp [enableDisableTraceState, runRenders, resetState, ContextReset, SetupOpenGl,
          GlNamespace.gen, GlNamespace.empty, initialOpenGlState, Render,
          InitializeFrameState, cursorOffInput, cursorOnInput]
  · simp [enableDisableTraceState, runRenders, resetState, ContextReset, SetupOpenGl,
          GlNamespace.gen, GlNamespace.empty, initialOpenGlState, Render,
          InitializeFrameState, cursorOffInput, cursorOnInput]
  · simp [cursorBox, disabledCursor, NDS_SCREEN_WIDTH, NDS_SCREEN_HEIGHT]
    norm_num

/-- C5: evaluating the code after a successful context reset followed by
context_destroy: the four GPU objects (output texture, vertex array, vertex buffer,
shader program) are indeed released, but context_destroy never clears the
context_initialized flag (only ContextReset assigns it), so ContextInitialized()
still returns true immediately after context_destroy completes, contrary to the
claim. -/
theorem C5_destroy_leaves_flag_set :
    ContextInitialized destroyedState = true
      ∧ resetState.screen_framebuffer_texture ∉ destroyedState.textures.live
      ∧ resetState.vao ∉ destroyedState.vaos.live
      ∧ resetState.vbo ∉ destroyedState.buffers.live
      ∧ resetState.shader ∉ destroyedState.programs.live := by
  refine ⟨rfl, ?_, ?_, ?_, ?_⟩ <;>
    simp [destroyedState, resetState, context_destroy, ContextReset, SetupOpenGl,
          GlNamespace.gen, GlNamespace.delete, GlNamespace.empty, initialOpenGlState]

/-- C6: invoking context_destroy twice in a row without an intervening reset leaves
exactly the state of invoking it once, and after the first invocation none of the
four deleted names is live any more, so the second invocation deletes nothing and,
by the GL delete semantics, does not fault. -/
theorem C6_destroy_idempotent :
    ∀ s : OpenGlState,
      context_destroy (context_destroy s) = context_destroy s
      ∧ (context_destroy s).screen_framebuffer_texture ∉ (context_destroy s).textures.live
      ∧ (context_destroy s).vao ∉ (context_destroy s).vaos.live
      ∧ (context_destroy s).vbo ∉ (context_destroy s).buffers.live
      ∧ (context_destroy s).shader ∉ (context_destroy s).programs.live := by
  intro s
  refine ⟨?_, ?_, ?_, ?_, ?_⟩ <;>
    simp [context_destroy, GlNamespace.delete, Finset.erase_idem]

/-- C7: for the sequence reset, destroy, reset (both resets successful), the second
reset reallocates the shader program, uniform buffer, vertex buffer, vertex array,
and output texture from scratch (each handle is live afterwards and was not a live
name of the destroyed state) and leaves the refresh flag set; the first Render after
it observes the refresh flag, clears the framebuffer, rebuilds the vertex array and
uploads it together with the uniform block, and clears the flag. -/
theorem C7_reset_destroy_reset_roundtrip :
    secondResetState.context_initialized = true
      ∧ secondResetState.refresh_opengl = true
      ∧ secondResetState.shader ∈ secondResetState.programs.live
      ∧ secondResetState.shader ∉ destroyedState.programs.live
      ∧ secondResetState.ubo ∈ secondResetState.buffers.live
      ∧ secondResetState.ubo ∉ destroyedState.buffers.live
      ∧ secondResetState.vbo ∈ secondResetState.buffers.live
      ∧ secondResetState.vbo ∉ destroyedState.buffers.live
      ∧ secondResetState.vao ∈ secondResetState.vaos.live
      ∧ secondResetState.vao ∉ destroyedState.vaos.live
      ∧ secondResetState.screen_framebuffer_texture ∈ secondResetState.textures.live
      ∧ secondResetState.screen_framebuffer_texture ∉ destroyedState.textures.live
      ∧ ∀ i : RenderInput,
          (Render i secondResetState).2.cleared = true
          ∧ (Render i secondResetState).1.refresh_opengl = false
          ∧ (Render i secondResetState).1.screen_vertices
              = applyWrites (frameWrites i.screenLayout) secondResetState.screen_vertices
          ∧ (Render i secondResetState).1.uboData
              = some (Render i secondResetState).1.shaderConfig := by
  have hsecond : secondResetState.refresh_opengl = true := by
    simp [secondResetState, destroyedState, resetState, ContextReset, SetupOpenGl,
          GlNamespace.gen, GlNamespace.delete, GlNamespace.empty, initialOpenGlState,
          context_destroy]
  refine ⟨?_, hsecond, ?_, ?_, ?_, ?_, ?_, ?_, ?_, ?_, ?_, ?_, ?_⟩
  case _ => rfl
  all_goals
    first
    | (intro i
       cases hc : i.cursorEnabled <;>
         simp [Render, InitializeFrameState, hsecond, hc])
    | simp [secondResetState, destroyedState, resetState, ContextReset, SetupOpenGl,
            GlNamespace.gen, GlNamespace.delete, GlNamespace.empty, initialOpenGlState,
            context_destroy]

/-- C8 counterexample: for the TopOnly layout at native 256x192, the suppressed
bottom-screen quad spans 256 units in x and 192 units in y, i.e. it is emitted at
full size, not with zero height/width. -/
theorem C8_suppressed_quad_counterexample :
    (vertexAt topOnlyLayout 8).x - (vertexAt topOnlyLayout 6).x = 256
      ∧ (vertexAt topOnlyLayout 8).y - (vertexAt topOnlyLayout 6).y = 192
      ∧ (vertexAt topOnlyLayout 8).x - (vertexAt topOnlyLayout 6).x ≠ 0
      ∧ (vertexAt topOnlyLayout 8).y - (vertexAt topOnlyLayout 6).y ≠ 0 := by
  refine ⟨?_, ?_, ?_, ?_⟩ <;>
    simp [topOnlyLayout, vertexAt, applyWrites, frameWrites, switchLocals,
          ScreenLayoutData.IsHybridLayout, zeroVertex]

/-- C8 amended: for TopOnly and BottomOnly the suppressed screen's quad keeps the
full screen width and height and is instead translated down by one screen height
(its top edge sits at y = screenHeight, its bottom edge at y = 2 * screenHeight),
which places it outside the visible buffer, while the shown screen's quad starts at
the origin. -/
theorem C8_suppressed_quad_amended :
    ∀ (m : SmallScreenLayout) (w h gap r bw bh : ℚ),
      ((vertexAt ⟨ScreenLayout.TopOnly, m, w, h, gap, r, bw, bh⟩ 6).x = 0
        ∧ (vertexAt ⟨ScreenLayout.TopOnly, m, w, h, gap, r, bw, bh⟩ 6).y = h
        ∧ (vertexAt ⟨ScreenLayout.TopOnly, m, w, h, gap, r, bw, bh⟩ 8).x = w
        ∧ (vertexAt ⟨ScreenLayout.TopOnly, m, w, h, gap, r, bw, bh⟩ 8).y = h + h)
      ∧ ((vertexAt ⟨ScreenLayout.BottomOnly, m, w, h, gap, r, bw, bh⟩ 0).x = 0
        ∧ (vertexAt ⟨ScreenLayout.BottomOnly, m, w, h, gap, r, bw, bh⟩ 0).y = h
        ∧ (vertexAt ⟨ScreenLayout.BottomOnly, m, w, h, gap, r, bw, bh⟩ 2).x = w
        ∧ (vertexAt ⟨ScreenLayout.BottomOnly, m, w, h, gap, r, bw, bh⟩ 2).y = h + h)
      ∧ ((vertexAt ⟨ScreenLayout.TopOnly, m, w, h, gap, r, bw, bh⟩ 0).x = 0
        ∧ (vertexAt ⟨ScreenLayout.TopOnly, m, w, h, gap, r, bw, bh⟩ 0).y = 0
        ∧ (vertexAt ⟨ScreenLayout.BottomOnly, m, w, h, gap, r, bw, bh⟩ 6).x = 0
        ∧ (vertexAt ⟨ScreenLayout.BottomOnly, m, w, h, gap, r, bw, bh⟩ 6).y = 0) := by
  intro m w h gap r bw bh
  cases m <;>
    simp [vertexAt, applyWrites, frameWrites, switchLocals,
          ScreenLayoutData.IsHybridLayout, zeroVertex]

/-- C9: with 256x192 screens and gap 0, under TopBottom the top-screen quad's
top-left position is (0,0) and the bottom-screen quad's top-left position is
(0, 192); under LeftRight with the same dimensions the bottom-screen quad's top-left
position is (256, 0) and the top-screen quad's stays at (0,0).  (The top quad starts
at write index 0 and the bottom quad at write index 6; the other layout fields are
irrelevant and quantified.) -/
theorem C9_quad_origins :
    ∀ (m : SmallScreenLayout) (r bw bh : ℚ),
      vertexAt ⟨ScreenLayout.TopBottom, m, 256, 192, 0, r, bw, bh⟩ 0 = ⟨0, 0, 0, 0⟩
      ∧ (vertexAt ⟨ScreenLayout.TopBottom, m, 256, 192, 0, r, bw, bh⟩ 6).x = 0
      ∧ (vertexAt ⟨ScreenLayout.TopBottom, m, 256, 192, 0, r, bw, bh⟩ 6).y = 192
      ∧ vertexAt ⟨ScreenLayout.LeftRight, m, 256, 192, 0, r, bw, bh⟩ 0 = ⟨0, 0, 0, 0⟩
      ∧ (vertexAt ⟨ScreenLayout.LeftRight, m, 256, 192, 0, r, bw, bh⟩ 6).x = 256
      ∧ (vertexAt ⟨ScreenLayout.LeftRight, m, 256, 192, 0, r, bw, bh⟩ 6).y = 0 := by
  intro m r bw bh
  cases m <;>
    simp [vertexAt, applyWrites, frameWrites, switchLocals,
          ScreenLayoutData.IsHybridLayout, zeroVertex]

/-- C10: retro_get_region returns RETRO_REGION_NTSC in every program state,
regardless of whether or which game is loaded. -/
theorem C10_region_always_ntsc :
    ∀ s : ProgramState, retro_get_region s = RETRO_REGION_NTSC := by
  intro s
  rfl

end Melonds
